import Mathlib

/-!
Verification of the Agent Runtime Orchestration Core of the eliza-fork
repository against its natural-language specification.

The definitions below are a shallow embedding of
`src/packages/core/src/types.ts` (the asUUID helper, the Memory/Content
data model, the message-memory factory and guard, the Success/Failure
result helpers, and the TWITTER_POST action with its confirmation-task
worker).  Components whose implementation is not part of the sources
(the State Composer `composeState` and the Action Dispatcher gate) are
modelled from the specification and are marked as such in their doc
comments.  Stateful runtime effects (database calls, callbacks, tweet
sending) are embedded as explicit event traces; fallible code returns
`Except`.
-/

namespace Eliza

/-- UUID values are branded strings in the source (`type UUID = ...`). -/
abbrev UUID := String

/-! ## asUUID (src/packages/core/src/types.ts lines 14-19) -/

/-- Character class `[0-9a-f]` under the `/i` flag of the source regex:
a hexadecimal digit, case-insensitive. -/
def hexDigit (c : Char) : Bool :=
  (('0' ≤ c) && (c ≤ '9')) || (('a' ≤ c) && (c ≤ 'f')) || (('A' ≤ c) && (c ≤ 'F'))

/-- Splitting a character list on the dash character; helper used to phrase
the anchored group structure `{8}-{4}-{4}-{4}-{12}` of the source regex. -/
def splitOnDash : List Char → List (List Char)
  | [] => [[]]
  | c :: rest =>
    let r := splitOnDash rest
    if c = '-' then [] :: r
    else
      match r with
      | [] => [[c]]
      | g :: gs => (c :: g) :: gs

/-- The test of the source regex
`/^[0-9a-f]{8}-[0-9a-f]{4}-[0-9a-f]{4}-[0-9a-f]{4}-[0-9a-f]{12}$/i`:
exactly five dash-separated groups of hexadecimal digits with lengths
8, 4, 4, 4 and 12 (a dash is never a hex digit, so group splitting is
equivalent to the anchored regex). -/
def uuidRegexTest (s : String) : Bool :=
  match splitOnDash s.toList with
  | [a, b, c, d, e] =>
    a.length == 8 && b.length == 4 && c.length == 4 && d.length == 4 && e.length == 12
      && a.all hexDigit && b.all hexDigit && c.all hexDigit && d.all hexDigit
      && e.all hexDigit
  | _ => false

/-- Embedding of `asUUID` (types.ts lines 14-19): the thrown `Error` becomes
the `Except.error` branch.  `!id` in the source is JavaScript falsiness of a
string, i.e. emptiness. -/
def asUUID (id : String) : Except String UUID :=
  if id.isEmpty || !uuidRegexTest id then
    Except.error ("Invalid UUID format: " ++ id)
  else
    Except.ok id

/-! ## Content and Memory data model (types.ts lines 24-216) -/

/-- Embedding of the `Content` record, restricted to the fields the verified
code paths read or write (`thought`, `text`, `actions`, `source`, `url`,
`inReplyTo`, and the dynamic `tweetId` key set by the TWITTER_POST worker). -/
structure ContentM where
  thought : Option String := none
  text : Option String := none
  actions : List String := []
  source : Option String := none
  url : Option String := none
  inReplyTo : Option UUID := none
  tweetId : Option String := none
deriving DecidableEq

/-- Embedding of `MemoryMetadata`, restricted to the fields the verified code
paths use.  `type` is a string in the source (`MemoryTypeAlias`); the
built-in `MemoryType` enum members are string constants. -/
structure MemoryMetadataM where
  type : String
  timestamp : Option Nat := none
  scope : Option String := none
deriving DecidableEq

/-- String constant of the source enum member `MemoryType.MESSAGE`. -/
def MemoryType.MESSAGE : String := "message"

/-- Embedding of the `Memory` record (types.ts lines 186-216), restricted to
the fields the verified code paths use. -/
structure MemoryM where
  id : Option UUID := none
  entityId : UUID
  agentId : Option UUID := none
  createdAt : Option Nat := none
  content : ContentM
  roomId : UUID
  metadata : Option MemoryMetadataM := none
deriving DecidableEq

/-! ## Message memory factory and guard (types.ts lines 1916-1943) -/

/-- Embedding of `isMessageMemory` (types.ts lines 1916-1921):
`memory.metadata?.type === MemoryType.MESSAGE && typeof
memory.content.text === 'string'`. -/
def isMessageMemory (memory : MemoryM) : Bool :=
  (match memory.metadata with
   | some md => md.type == MemoryType.MESSAGE
   | none => false)
    && memory.content.text.isSome

/-- Embedding of the parameter record of `createMessageMemory`
(types.ts lines 1926-1933).  The TypeScript type constrains
`content.text` to be a string; in the embedding this is carried as a
hypothesis (`content.text.isSome`) where needed. -/
structure MessageMemoryParams where
  id : Option UUID := none
  entityId : UUID
  agentId : Option UUID := none
  roomId : UUID
  content : ContentM
deriving DecidableEq

/-- Embedding of `createMessageMemory` (types.ts lines 1926-1943).  The two
`Date.now()` calls are the explicit `now` argument; `params.agentId ?
"private" : "shared"` is JavaScript truthiness of an optional UUID,
i.e. presence. -/
def createMessageMemory (now : Nat) (params : MessageMemoryParams) : MemoryM :=
  { id := params.id
    entityId := params.entityId
    agentId := params.agentId
    roomId := params.roomId
    content := params.content
    createdAt := some now
    metadata := some
      { type := MemoryType.MESSAGE
        timestamp := some now
        scope := some (if params.agentId.isSome then "private" else "shared") } }

/-! ## Success / Failure result helpers (types.ts lines 1982-2064) -/

/-- Embedding of the `Success` class (types.ts lines 1988-2014). -/
structure Success (T : Type) where
  value : T
deriving DecidableEq

/-- Embedding of the `Failure` class (types.ts lines 2020-2046). -/
structure Failure (E : Type) where
  error : E
deriving DecidableEq

/-- Field `isSuccess = true` of the `Success` class. -/
def Success.isSuccess {T : Type} (_ : Success T) : Bool := true

/-- Field `isFailure = false` of the `Success` class. -/
def Success.isFailure {T : Type} (_ : Success T) : Bool := false

/-- Method `Success.map` (types.ts lines 2002-2004). -/
def Success.map {T U : Type} (s : Success T) (fn : T → U) : Success U :=
  ⟨fn s.value⟩

/-- Method `Success.unwrapOr` (types.ts lines 2011-2013): ignores the
default and returns the wrapped value. -/
def Success.unwrapOr {T : Type} (s : Success T) (_defaultValue : T) : T :=
  s.value

/-- Field `isSuccess = false` of the `Failure` class. -/
def Failure.isSuccess {E : Type} (_ : Failure E) : Bool := false

/-- Field `isFailure = true` of the `Failure` class. -/
def Failure.isFailure {E : Type} (_ : Failure E) : Bool := true

/-- Method `Failure.mapError` (types.ts lines 2034-2036). -/
def Failure.mapError {E F : Type} (f : Failure E) (fn : E → F) : Failure F :=
  ⟨fn f.error⟩

/-- Method `Failure.unwrapOr` (types.ts lines 2043-2045): returns the
default. -/
def Failure.unwrapOr {E T : Type} (_ : Failure E) (defaultValue : T) : T :=
  defaultValue

/-- Embedding of the `success` factory (types.ts lines 2053-2055). -/
def success {T : Type} (value : T) : Success T := ⟨value⟩

/-- Embedding of the `failure` factory (types.ts lines 2062-2064). -/
def failure {E : Type} (error : E) : Failure E := ⟨error⟩

/-! ## Rooms, tasks and the TWITTER_POST action (types.ts lines 439-502,
1472-1502, 2264-2643) -/

/-- Embedding of the `ChannelType` enum (types.ts lines 488-499). -/
inductive ChannelTypeM where
  | SELF | DM | GROUP | VOICE_DM | VOICE_GROUP | FEED | THREAD | WORLD | API | FORUM
deriving DecidableEq

/-- Embedding of the `Room` record (types.ts lines 439-449), restricted to
the fields the TWITTER_POST code paths read. -/
structure RoomM where
  id : UUID
  type : ChannelTypeM
  serverId : Option String := none
deriving DecidableEq

/-- Embedding of one entry of `Task.metadata.options` (types.ts lines
1492-1495): an option name with its description. -/
structure TaskOptionM where
  name : String
  description : String
deriving DecidableEq

/-- Embedding of the `Task` record (types.ts lines 1486-1502), with
`metadata` flattened to the two fields the verified code paths use. -/
structure TaskM where
  id : Option UUID := none
  name : String
  description : String := ""
  roomId : Option UUID := none
  worldId : Option UUID := none
  tags : List String := []
  options : Option (List TaskOptionM) := none
deriving DecidableEq

/-- Embedding of a world `Setting` (types.ts lines 1510-1519), restricted to
its `value`; `none` models the JavaScript `null` value. -/
structure SettingM where
  value : Option String := none
deriving DecidableEq

/-- Embedding of `REQUIRED_TWITTER_FIELDS` (types.ts lines 2279-2283). -/
def REQUIRED_TWITTER_FIELDS : List String :=
  ["TWITTER_USERNAME", "TWITTER_EMAIL", "TWITTER_PASSWORD"]

/-- Environment of the TWITTER_POST action: the storage collaborator state
(rooms and tasks, per the `IDatabaseAdapter` contract of types.ts lines
890-896, an external collaborator per spec section 6), the per-server world
settings as read by the imported `getWorldSettings` helper, the per-entity
server role as read by the imported `getUserServerRole` helper (neither
helper's implementation is under src, so both are oracle fields here), and
whether a TWITTER_POST task worker is currently registered. -/
structure TwitterEnv where
  rooms : List RoomM := []
  tasks : List TaskM := []
  worldSettingsOf : String → Option (List (String × SettingM))
  roleOf : UUID → String → String
  workerIsRegistered : Bool := false

/-- Model of `IDatabaseAdapter.getRoom`: find the room by id. -/
def getRoom (env : TwitterEnv) (roomId : UUID) : Option RoomM :=
  env.rooms.find? (fun r => r.id == roomId)

/-- Model of `IDatabaseAdapter.getTasks` with `{ roomId, tags }` params:
tasks of that room carrying all the requested tags. -/
def getTasks (env : TwitterEnv) (roomId : UUID) (tags : List String) : List TaskM :=
  env.tasks.filter
    (fun t => t.roomId == some roomId && tags.all (fun tg => t.tags.contains tg))

/-- Model of `IDatabaseAdapter.getTask`: find the task whose id equals the
given id (the TWITTER_POST handler passes `message.roomId` here). -/
def getTask (env : TwitterEnv) (id : UUID) : Option TaskM :=
  env.tasks.find? (fun t => t.id == some id)

/-- Embedding of `validateTwitterConfig` (types.ts lines 2294-2326) on the
settings returned for the server: no settings state is invalid; a missing
required field or a `null` value is invalid; otherwise valid.  The
try/catch of the source maps a throwing settings lookup to `none`. -/
def validateTwitterConfig (ws : Option (List (String × SettingM))) : Bool :=
  match ws with
  | none => false
  | some settings =>
    REQUIRED_TWITTER_FIELDS.all (fun f =>
      match settings.find? (fun p => p.1 == f) with
      | none => false
      | some p => p.2.value.isSome)

/-- Embedding of `twitterPostAction.validate` (types.ts lines 2359-2400).
`stateRoom` is `state.data.room`; `!serverId` in the source is JavaScript
string falsiness (undefined or empty).  Thrown errors become
`Except.error`. -/
def twitterPostValidate (env : TwitterEnv) (msg : MemoryM)
    (stateRoom : Option RoomM) : Except String Bool :=
  match stateRoom <|> getRoom env msg.roomId with
  | none => Except.error "No room found"
  | some room =>
    if room.type ≠ ChannelTypeM.GROUP then Except.ok false
    else
      match room.serverId with
      | none => Except.error "No server ID found"
      | some sid =>
        if sid = "" then Except.error "No server ID found"
        else
          let pendingTasks := getTasks env msg.roomId ["TWITTER_POST"]
          if pendingTasks.length > 0 then Except.ok false
          else Except.ok (validateTwitterConfig (env.worldSettingsOf sid))

/-- Runtime effects performed by the TWITTER_POST action handler and its
confirmation-task worker, embedded as an explicit event trace. -/
inductive TwEvent where
  | cbCalled (c : ContentM)
  | tweetSent (text : String)
  | taskDeleted (id : Option UUID)
  | taskCreated (t : TaskM)
  | memoryCreated (c : ContentM)
  | workerRegistered (name : String)
deriving DecidableEq

/-- Embedding of the TWITTER_POST task worker's `execute` (types.ts lines
2496-2545).  `responseContent`, `cleanTweet` and the world-settings
username are the values the source closure captures; `tweetId` stands for
the id extracted from the external `sendTweet` response.  The returned
trace records each callback invocation and the external tweet send. -/
def twitterPostWorkerExecute (responseContent : ContentM) (cleanTweet : String)
    (username : String) (tweetId : String) (opt : String) : List TwEvent :=
  if opt = "cancel" then
    [TwEvent.cbCalled
      { responseContent with
        text := some "OK, I won\x27t post it."
        actions := ["TWITTER_POST_CANCELLED"] }]
  else if opt ≠ "post" then
    [TwEvent.cbCalled
      { responseContent with
        text := some "Bad choice. Should be \x27post\x27 or \x27cancel\x27."
        actions := ["TWITTER_POST_INVALID_OPTION"] }]
  else
    let tweetUrl := "https://twitter.com/" ++ username ++ "/status/" ++ tweetId
    [TwEvent.tweetSent cleanTweet,
      TwEvent.cbCalled
        { responseContent with
          text := some tweetUrl
          url := some tweetUrl
          tweetId := some tweetId }]

/-- Embedding of the TWITTER_POST task worker's `validate` (types.ts lines
2546-2558): the resolving message's entity must hold the OWNER or ADMIN
role for the captured server. -/
def twitterPostWorkerValidate (env : TwitterEnv) (serverId : String)
    (msg : MemoryM) : Bool :=
  let userRole := env.roleOf msg.entityId serverId
  userRole == "OWNER" || userRole == "ADMIN"

/-- True when the trace contains an external tweet send. -/
def sendsTweet (evs : List TwEvent) : Bool :=
  evs.any (fun e => match e with | TwEvent.tweetSent _ => true | _ => false)

/-- True when the trace contains a task deletion. -/
def deletesTask (evs : List TwEvent) : Bool :=
  evs.any (fun e => match e with | TwEvent.taskDeleted _ => true | _ => false)

/-- Action lists of the callback invocations of a trace, in order. -/
def cbActionsOf (evs : List TwEvent) : List (List String) :=
  evs.filterMap (fun e => match e with
    | TwEvent.cbCalled c => some c.actions
    | _ => none)

/-- Embedding of `twitterPostAction.handler` (types.ts lines 2402-2607).
`stateRoom` is `state.data.room`; `cleanTweet` stands for the cleaned
output of the external TEXT_SMALL model call (`useModel` plus the
trim/quote-strip cleanup of lines 2449-2462, which no verified claim
touches).  Thrown errors become `Except.error`; the returned pair is the
event trace plus the returned `responseContent` (`none` models the
`return false` / plain `return` exits). -/
def twitterPostHandler (env : TwitterEnv) (cleanTweet : String) (msg : MemoryM)
    (stateRoom : Option RoomM) : Except String (List TwEvent × Option ContentM) :=
  match stateRoom <|> getRoom env msg.roomId with
  | none => Except.error "No room found"
  | some room =>
    if room.type ≠ ChannelTypeM.GROUP then
      Except.ok ([TwEvent.memoryCreated
        { source := msg.content.source
          thought := some "I tried to post a tweet but I\x27m not in a group scenario."
          actions := ["TWITTER_POST_FAILED"] }], none)
    else
      match room.serverId with
      | none => Except.error "No server ID found"
      | some sid =>
        if sid = "" then Except.error "No server ID found"
        else
          match env.worldSettingsOf sid with
          | none => Except.error "Twitter not configured for this server"
          | some _ws =>
            let userRole := env.roleOf msg.entityId sid
            if userRole ≠ "OWNER" ∧ userRole ≠ "ADMIN" then
              Except.ok ([TwEvent.cbCalled
                { text := some "I\x27m sorry, but you\x27re not authorized to post tweets on behalf of this org."
                  actions := ["TWITTER_POST_FAILED"]
                  source := msg.content.source }], none)
            else
              let responseContent : ContentM :=
                { text := some ("I\x27ll tweet this:\n\n" ++ cleanTweet)
                  actions := ["TWITTER_POST"]
                  source := msg.content.source }
              let deleteEvs :=
                match getTask env msg.roomId with
                | some t => [TwEvent.taskDeleted t.id]
                | none => []
              let regEvs :=
                if env.workerIsRegistered then []
                else [TwEvent.workerRegistered "TWITTER_POST"]
              let newTask : TaskM :=
                { roomId := some msg.roomId
                  name := "Confirm Twitter Post"
                  description := "Confirm the tweet to be posted."
                  tags := ["TWITTER_POST", "AWAITING_CHOICE"]
                  options := some [⟨"post", "Post the tweet to Twitter"⟩,
                    ⟨"cancel", "Cancel the tweet and don\x27t post it"⟩] }
              let finalText := "I\x27ll tweet this:\n\n" ++ cleanTweet
                ++ "\nWaiting for approval from "
                ++ (if userRole = "OWNER" then "an admin" else "an admin or boss")
              Except.ok (deleteEvs ++ regEvs
                ++ [TwEvent.taskCreated newTask,
                  TwEvent.cbCalled { responseContent with
                    text := some finalText
                    actions := ["TWITTER_POST_TASK_NEEDS_CONFIRM"] }],
                some { responseContent with text := some finalText })

/-- Modelled from the spec: the Action Dispatcher (`processActions`, whose
implementation is not under src) runs `validate` before `handler` and
excludes the action from execution when validation does not succeed,
i.e. the handler runs only when validate resolves to true. -/
def actionPasses (v : Except String Bool) : Bool :=
  match v with
  | Except.ok true => true
  | _ => false

/-! ## State Composer (spec sections 3 and 4.1; `composeState` is declared
at types.ts lines 1212-1216 as part of `IAgentRuntime`, but its
implementation is not part of the sources, so the composer below is
modelled from the specification) -/

/-- Values contributed by providers, treated as opaque scalars. -/
abbrev Val := String

/-- Embedding of `ProviderResult` (types.ts lines 321-329): partial
`values`/`data` mappings and an optional text fragment, as association
lists. -/
structure ProviderResultM where
  values : List (String × Val) := []
  data : List (String × Val) := []
  text : Option String := none

/-- Embedding of the Context Snapshot (`State`, types.ts lines 114-124):
`values` and `data` mappings plus a rendered text digest. -/
structure StateS where
  values : List (String × Val) := []
  data : List (String × Val) := []
  text : String := ""

/-- Embedding of a registered `Provider` (types.ts lines 334-360): name,
optional `position`, `private` flag (`priv` here), and the data retrieval
function; `get` may throw, hence `Except`. -/
structure ProviderM where
  name : String := ""
  position : Option Int := none
  priv : Bool := false
  get : MemoryM → StateS → Except String ProviderResultM

/-- First-match lookup in an association map (JavaScript object access). -/
def lookupKV : List (String × Val) → String → Option Val
  | [], _ => none
  | (k2, v) :: rest, k => if k2 = k then some v else lookupKV rest k

/-- Setting one key of an association map, keeping key uniqueness: replace
in place at the first occurrence when present, append otherwise (the
behavior of a JavaScript object-spread override on one key). -/
def upsert : List (String × Val) → String → Val → List (String × Val)
  | [], k, v => [(k, v)]
  | (k1, v1) :: rest, k, v =>
    if k1 = k then (k, v) :: rest else (k1, v1) :: upsert rest k v

/-- Modelled from the spec: the override merge of section 3 — `later
entries override earlier keys on collision` — folding the contribution
into the accumulated mapping key by key. -/
def mergeKV (m contrib : List (String × Val)) : List (String × Val) :=
  contrib.foldl (fun acc p => upsert acc p.1 p.2) m

/-- Modelled from the spec: accumulation of the rendered text digest across
providers (a provider with no text leaves the digest unchanged). -/
def mergeText (acc : String) (t : Option String) : String :=
  match t with
  | none => acc
  | some s => if acc = "" then s else acc ++ "\n" ++ s

/-- Effective ordering position: `providers with no position sort as 0`
(spec section 4.1). -/
def effPos (p : ProviderM) : Int :=
  match p.position with
  | some n => n
  | none => 0

/-- Ordering relation of the provider sort: `position` ascending. -/
def posLe (p q : ProviderM) : Prop := effPos p ≤ effPos q

instance : DecidableRel posLe := fun p q => Int.decLe (effPos p) (effPos q)

instance : IsTotal ProviderM posLe := ⟨fun p q => Int.le_total (effPos p) (effPos q)⟩

instance : IsTrans ProviderM posLe := ⟨fun _ _ _ h1 h2 => le_trans h1 h2⟩

/-- Modelled from the spec (section 4.1): the active provider set — all
registered non-private providers; with an `includeList`, exactly those
names (private ones become eligible via explicit inclusion); with a
`filterList`, those names removed. -/
def selectProviders (P : List ProviderM)
    (filterList includeList : Option (List String)) : List ProviderM :=
  let base :=
    match includeList with
    | some inc => P.filter (fun p => inc.contains p.name)
    | none => P.filter (fun p => !p.priv)
  match filterList with
  | some fl => base.filter (fun p => !fl.contains p.name)
  | none => base

/-- Modelled from the spec (section 4.1): providers ordered by `position`
ascending with ties broken by registration order — a stable insertion
sort on the effective position. -/
def sortProviders (P : List ProviderM) : List ProviderM :=
  List.insertionSort posLe P

/-- Modelled from the spec (sections 4.1 and 7): one sequential provider
invocation — the provider sees the partial state accumulated so far, its
result is merged per the override rule, and a throwing provider is caught
with its contribution treated as empty. -/
def providerStep (msg : MemoryM) (acc : StateS) (p : ProviderM) : StateS :=
  match p.get msg acc with
  | Except.ok res =>
    { values := mergeKV acc.values res.values
      data := mergeKV acc.data res.data
      text := mergeText acc.text res.text }
  | Except.error _ => acc

/-- Modelled from the spec: `composeState(message, filterList?,
includeList?)` — select the active providers, order them, and fold their
contributions sequentially into one Context Snapshot, starting from the
empty snapshot. -/
def composeState (P : List ProviderM) (msg : MemoryM)
    (filterList includeList : Option (List String)) : StateS :=
  (sortProviders (selectProviders P filterList includeList)).foldl
    (providerStep msg) {}

/-- Last binding of a key in a contribution list (the value that survives
the left-to-right override merge of that contribution). -/
def lastIn : List (String × Val) → String → Option Val
  | [], _ => none
  | (k2, v) :: rest, k => (lastIn rest k) <|> (if k2 = k then some v else none)

/-- Contribution of provider `p` for key `k` when invoked at state `st`:
the surviving `values` binding, or nothing when the provider throws. -/
def kContrib (p : ProviderM) (msg : MemoryM) (st : StateS) (k : String) : Option Val :=
  match p.get msg st with
  | Except.ok res => lastIn res.values k
  | Except.error _ => none

/-- Message fixture for the composer witnesses. -/
def msgCS : MemoryM :=
  { entityId := "55555555-0000-0000-0000-00000000000e"
    roomId := "55555555-0000-0000-0000-000000000001"
    content := {} }

/-- Provider fixture: position 0, contributes `values.time = "early"`. -/
def provTime : ProviderM :=
  { name := "time"
    position := some 0
    get := fun _ _ => Except.ok { values := [("time", "early")] } }

/-- Provider fixture: position 1, overrides `values.time` and contributes
`values.name`. -/
def provPersona : ProviderM :=
  { name := "persona"
    position := some 1
    get := fun _ _ =>
      Except.ok { values := [("time", "overridden"), ("name", "persona-name")] } }

/-- Provider fixture whose `get` always throws. -/
def provBoom : ProviderM :=
  { name := "boom"
    position := some 0
    get := fun _ _ => Except.error "boom" }

/-- Predicate of claim C7: the handler result is a normal completion whose
trace contains a created memory or a callback reply whose actions include
TWITTER_POST_FAILED. -/
def failVisible (res : Except String (List TwEvent × Option ContentM)) : Prop :=
  ∃ evs ret, res = Except.ok (evs, ret)
    ∧ ∃ c, (TwEvent.memoryCreated c ∈ evs ∨ TwEvent.cbCalled c ∈ evs)
      ∧ "TWITTER_POST_FAILED" ∈ c.actions

/-- Room, task, settings and message fixtures for the C7 witness: a GROUP
room with a server id whose requesting entity holds role NONE. -/
def envC7 : TwitterEnv :=
  { rooms := [{ id := "77777777-0000-0000-0000-000000000001"
                type := ChannelTypeM.GROUP
                serverId := some "srv7" }]
    tasks := []
    worldSettingsOf := fun sid =>
      if sid = "srv7" then
        some [("TWITTER_USERNAME", { value := some "alice" }),
          ("TWITTER_EMAIL", { value := some "a@b.c" }),
          ("TWITTER_PASSWORD", { value := some "pw" })]
      else none
    roleOf := fun _ _ => "NONE" }

/-- Message fixture for the C7 witness. -/
def msgC7 : MemoryM :=
  { entityId := "77777777-0000-0000-0000-00000000000e"
    roomId := "77777777-0000-0000-0000-000000000001"
    content := {} }

/-- Room fixture of the C3 counterexample: a GROUP room with no server
id. -/
def roomC3 : RoomM :=
  { id := "33333333-0000-0000-0000-000000000001", type := ChannelTypeM.GROUP }

/-- Pending confirmation task fixture of the C3 counterexample, tagged
TWITTER_POST and scoped to the counterexample room. -/
def taskC3 : TaskM :=
  { id := some "33333333-0000-0000-0000-00000000000a"
    name := "Confirm Twitter Post"
    roomId := some "33333333-0000-0000-0000-000000000001"
    tags := ["TWITTER_POST", "AWAITING_CHOICE"] }

/-- Environment fixture of the C3 counterexample. -/
def envC3 : TwitterEnv :=
  { rooms := [roomC3]
    tasks := [taskC3]
    worldSettingsOf := fun _ => none
    roleOf := fun _ _ => "OWNER" }

/-- Message fixture of the C3 counterexample, in the counterexample
room. -/
def msgC3 : MemoryM :=
  { entityId := "33333333-0000-0000-0000-00000000000e"
    roomId := "33333333-0000-0000-0000-000000000001"
    content := {} }

/-- Environment fixture for the C3 amended-claim witness: a GROUP room
with a server id whose room already holds a pending TWITTER_POST task. -/
def envC3b : TwitterEnv :=
  { rooms := [{ id := "33333333-0000-0000-0000-000000000002"
                type := ChannelTypeM.GROUP
                serverId := some "srv3" }]
    tasks := [{ id := some "33333333-0000-0000-0000-00000000000b"
                name := "Confirm Twitter Post"
                roomId := some "33333333-0000-0000-0000-000000000002"
                tags := ["TWITTER_POST", "AWAITING_CHOICE"] }]
    worldSettingsOf := fun _ => none
    roleOf := fun _ _ => "OWNER" }

/-- Message fixture for the C3 amended-claim witness. -/
def msgC3b : MemoryM :=
  { entityId := "33333333-0000-0000-0000-00000000000e"
    roomId := "33333333-0000-0000-0000-000000000002"
    content := {} }

/-! ## Theorems for claims C8, C9, C10 -/

/-- Claim C8: `asUUID` fails fast on configuration-shaped input: for every
string `s`, `asUUID s` throws an error mentioning "Invalid UUID format" if
and only if `s` is empty or does not match the 8-4-4-4-12 hexadecimal
pattern (case-insensitive), and otherwise returns `s` unchanged. -/
theorem asUUID_fail_fast (s : String) :
    (asUUID s = Except.error ("Invalid UUID format: " ++ s)
      ↔ (s = "" ∨ uuidRegexTest s = false))
    ∧ ((s ≠ "" ∧ uuidRegexTest s = true) → asUUID s = Except.ok s) := by
  by_cases h1 : s = ""
  · subst h1
    refine ⟨⟨fun _ => Or.inl rfl, fun _ => rfl⟩, fun h => absurd rfl h.1⟩
  · have he : s.isEmpty = false := by
      cases hh : s.isEmpty
      · rfl
      · exact absurd (String.isEmpty_iff s |>.mp hh) h1
    by_cases h2 : uuidRegexTest s = true
    · have hb : (s.isEmpty || !uuidRegexTest s) = false := by simp [he, h2]
      refine ⟨⟨fun h => ?_, fun h => ?_⟩, fun _ => ?_⟩
      · rw [asUUID, hb] at h
        simp at h
      · rcases h with h | h
        · exact absurd h h1
        · rw [h2] at h
          simp at h
      · rw [asUUID, hb]
        simp
    · have h2f : uuidRegexTest s = false := by
        cases hh : uuidRegexTest s
        · rfl
        · exact absurd hh h2
      have hb : (s.isEmpty || !uuidRegexTest s) = true := by simp [h2f]
      refine ⟨⟨fun _ => Or.inr h2f, fun _ => ?_⟩, fun h => ?_⟩
      · rw [asUUID, hb]
        simp
      · rw [h2f] at h
        simp at h

/-- Witness for C8: a well-formed UUID string is returned unchanged, and a
malformed one is rejected with the "Invalid UUID format" error. -/
theorem asUUID_fail_fast_witness :
    asUUID "123e4567-e89b-12d3-a456-426614174000"
      = Except.ok "123e4567-e89b-12d3-a456-426614174000"
    ∧ asUUID "not-a-uuid" = Except.error ("Invalid UUID format: " ++ "not-a-uuid") :=
  ⟨(asUUID_fail_fast "123e4567-e89b-12d3-a456-426614174000").2
      ⟨by decide, by decide⟩,
    (asUUID_fail_fast "not-a-uuid").1.2 (Or.inr (by decide))⟩

/-- Claim C9: round-trip of the message-memory constructor and its type
guard: for every params record with a string `content.text`,
`isMessageMemory (createMessageMemory params)` is true; the constructed
memory's `metadata.type` is `MemoryType.MESSAGE` and its `metadata.scope`
is "private" exactly when `params.agentId` is provided and "shared"
otherwise. -/
theorem createMessageMemory_roundtrip (now : Nat) (params : MessageMemoryParams)
    (htext : params.content.text.isSome = true) :
    isMessageMemory (createMessageMemory now params) = true
    ∧ ((createMessageMemory now params).metadata.map (fun md => md.type))
        = some MemoryType.MESSAGE
    ∧ ((createMessageMemory now params).metadata.bind (fun md => md.scope))
        = some (if params.agentId.isSome then "private" else "shared") := by
  refine ⟨?_, rfl, rfl⟩
  simp [isMessageMemory, createMessageMemory, htext]

/-- Witness for C9: the round-trip evaluated on a concrete params record,
once with an agentId (scope "private") and the guard accepting. -/
theorem createMessageMemory_roundtrip_witness :
    isMessageMemory (createMessageMemory 1700000000000
      { entityId := "11111111-2222-3333-4444-555555555555"
        agentId := some "aaaaaaaa-bbbb-cccc-dddd-eeeeeeeeeeee"
        roomId := "99999999-8888-7777-6666-555555555555"
        content := { text := some "hello world" } }) = true
    ∧ ((createMessageMemory 1700000000000
      { entityId := "11111111-2222-3333-4444-555555555555"
        agentId := some "aaaaaaaa-bbbb-cccc-dddd-eeeeeeeeeeee"
        roomId := "99999999-8888-7777-6666-555555555555"
        content := { text := some "hello world" } }).metadata.bind
          (fun md => md.scope)) = some "private" := by
  refine ⟨(createMessageMemory_roundtrip 1700000000000 _ (by decide)).1, ?_⟩
  have h := (createMessageMemory_roundtrip 1700000000000
    { entityId := "11111111-2222-3333-4444-555555555555"
      agentId := some "aaaaaaaa-bbbb-cccc-dddd-eeeeeeeeeeee"
      roomId := "99999999-8888-7777-6666-555555555555"
      content := { text := some "hello world" } } (by decide)).2.2
  simpa using h

/-- Claim C10: the Result helpers satisfy their algebra: for every value `v`
and default `d`, `(success v).unwrapOr d = v` and
`((success v).map f).value = f v` with `isSuccess` true and `isFailure`
false; for every error `e` and default `d2`,
`(failure e).unwrapOr d2 = d2` and `((failure e).mapError g).error = g e`
with `isFailure` true and `isSuccess` false. -/
theorem result_helpers_algebra (T U E F : Type) (v : T) (d : T) (e : E)
    (d2 : T) (f : T → U) (g : E → F) :
    (success v).unwrapOr d = v
    ∧ ((success v).map f).value = f v
    ∧ (success v).isSuccess = true
    ∧ (success v).isFailure = false
    ∧ (failure e).unwrapOr d2 = d2
    ∧ ((failure e).mapError g).error = g e
    ∧ (failure e).isFailure = true
    ∧ (failure e).isSuccess = false :=
  ⟨rfl, rfl, rfl, rfl, rfl, rfl, rfl, rfl⟩

/-! ## Theorems for claims C1, C4, C6, C7, C3 -/

/-- Claim C1: for the TWITTER_POST confirmation task, invoking the
registered worker's `execute` with `options.option = "cancel"` runs only
the cancel path (a single callback tagged TWITTER_POST_CANCELLED) and
never the post path; a tweet is sent if and only if `options.option` is
exactly "post"; any other option value produces the invalid-option reply
and sends nothing. -/
theorem twitterPostWorker_option_dispatch (rc : ContentM)
    (ct un ti opt : String) :
    (opt = "cancel" →
      cbActionsOf (twitterPostWorkerExecute rc ct un ti opt)
          = [["TWITTER_POST_CANCELLED"]]
        ∧ sendsTweet (twitterPostWorkerExecute rc ct un ti opt) = false)
    ∧ (sendsTweet (twitterPostWorkerExecute rc ct un ti opt) = true ↔ opt = "post")
    ∧ (opt ≠ "cancel" → opt ≠ "post" →
      cbActionsOf (twitterPostWorkerExecute rc ct un ti opt)
          = [["TWITTER_POST_INVALID_OPTION"]]
        ∧ sendsTweet (twitterPostWorkerExecute rc ct un ti opt) = false) := by
  by_cases h1 : opt = "cancel"
  · subst h1
    refine ⟨fun _ => ⟨rfl, rfl⟩, ?_, fun hc _ => absurd rfl hc⟩
    exact iff_of_false (by simp [twitterPostWorkerExecute, sendsTweet]) (by decide)
  · by_cases h2 : opt = "post"
    · subst h2
      refine ⟨fun h => absurd h (by decide), iff_of_true ?_ rfl,
        fun _ hp => absurd rfl hp⟩
      simp [twitterPostWorkerExecute, sendsTweet]
    · refine ⟨fun h => absurd h h1, ?_, fun _ _ => ?_⟩
      · refine iff_of_false ?_ h2
        simp [twitterPostWorkerExecute, h1, h2, sendsTweet]
      · constructor
        · simp [twitterPostWorkerExecute, h1, h2, cbActionsOf]
        · simp [twitterPostWorkerExecute, h1, h2, sendsTweet]

/-- Witness for C1: the worker evaluated at the concrete options "cancel"
(only the cancelled callback, no tweet) and "delete" (not a tweet-sending
option). -/
theorem twitterPostWorker_option_dispatch_witness :
    (cbActionsOf (twitterPostWorkerExecute {} "hello world" "alice" "123" "cancel")
        = [["TWITTER_POST_CANCELLED"]]
      ∧ sendsTweet (twitterPostWorkerExecute {} "hello world" "alice" "123" "cancel") = false)
    ∧ cbActionsOf (twitterPostWorkerExecute {} "hello world" "alice" "123" "delete")
        = [["TWITTER_POST_INVALID_OPTION"]] :=
  ⟨(twitterPostWorker_option_dispatch {} "hello world" "alice" "123" "cancel").1 rfl,
    ((twitterPostWorker_option_dispatch {} "hello world" "alice" "123" "delete").2.2
      (by decide) (by decide)).1⟩

/-- Claim C4 (code bug): the claim states that the worker's `execute`
deletes the Task record itself on a terminal option; in the source the
worker's `execute` (types.ts lines 2496-2545) performs callbacks and the
external tweet send but never calls `deleteTask`, for any inputs and any
option, in particular for the terminal options "post" and "cancel". -/
theorem twitterPostWorker_never_deletes_task (rc : ContentM)
    (ct un ti opt : String) :
    deletesTask (twitterPostWorkerExecute rc ct un ti opt) = false := by
  by_cases h1 : opt = "cancel" <;> by_cases h2 : opt = "post" <;>
    simp [twitterPostWorkerExecute, h1, h2, deletesTask]

/-- Claim C6: the TWITTER_POST task worker's `validate` gate returns true
if and only if the resolving message's entity holds the server role OWNER
or ADMIN for the task's server. -/
theorem twitterPostWorkerValidate_role_gate (env : TwitterEnv)
    (serverId : String) (msg : MemoryM) :
    twitterPostWorkerValidate env serverId msg = true
      ↔ (env.roleOf msg.entityId serverId = "OWNER"
          ∨ env.roleOf msg.entityId serverId = "ADMIN") := by
  simp [twitterPostWorkerValidate]

/-- Claim C7: whenever the TWITTER_POST handler declines to proceed (the
room is not a GROUP channel, or the requesting entity's role is neither
OWNER nor ADMIN), it produces a reply/memory content item whose actions
include TWITTER_POST_FAILED rather than completing silently. -/
theorem twitterPostHandler_failures_produce_reply (env : TwitterEnv)
    (cleanTweet : String) (msg : MemoryM) (stateRoom : Option RoomM)
    (room : RoomM) (hroom : (stateRoom <|> getRoom env msg.roomId) = some room) :
    (room.type ≠ ChannelTypeM.GROUP →
      failVisible (twitterPostHandler env cleanTweet msg stateRoom))
    ∧ (∀ sid ws, room.type = ChannelTypeM.GROUP → room.serverId = some sid →
        sid ≠ "" → env.worldSettingsOf sid = some ws →
        env.roleOf msg.entityId sid ≠ "OWNER" →
        env.roleOf msg.entityId sid ≠ "ADMIN" →
        failVisible (twitterPostHandler env cleanTweet msg stateRoom)) := by
  constructor
  · intro hng
    have heval : twitterPostHandler env cleanTweet msg stateRoom
        = Except.ok ([TwEvent.memoryCreated
            { source := msg.content.source
              thought := some "I tried to post a tweet but I\x27m not in a group scenario."
              actions := ["TWITTER_POST_FAILED"] }], none) := by
      unfold twitterPostHandler
      rw [hroom]
      simp [hng]
    rw [heval]
    exact ⟨_, _, rfl, _, Or.inl (List.mem_singleton.mpr rfl), by simp⟩
  · intro sid ws hg hsid hne hws ho ha
    have heval : twitterPostHandler env cleanTweet msg stateRoom
        = Except.ok ([TwEvent.cbCalled
            { text := some "I\x27m sorry, but you\x27re not authorized to post tweets on behalf of this org."
              actions := ["TWITTER_POST_FAILED"]
              source := msg.content.source }], none) := by
      unfold twitterPostHandler
      rw [hroom]
      simp [hg, hsid, hne, hws, ho, ha]
    rw [heval]
    exact ⟨_, _, rfl, _, Or.inr (List.mem_singleton.mpr rfl), by simp⟩

/-- Witness for C7: the unauthorized branch on concrete fixtures produces a
TWITTER_POST_FAILED reply. -/
theorem twitterPostHandler_failures_produce_reply_witness :
    failVisible (twitterPostHandler envC7 "hello world" msgC7 none) :=
  (twitterPostHandler_failures_produce_reply envC7 "hello world" msgC7 none
      { id := "77777777-0000-0000-0000-000000000001"
        type := ChannelTypeM.GROUP
        serverId := some "srv7" } rfl).2
    "srv7"
    [("TWITTER_USERNAME", { value := some "alice" }),
      ("TWITTER_EMAIL", { value := some "a@b.c" }),
      ("TWITTER_PASSWORD", { value := some "pw" })]
    rfl rfl (by decide) rfl (by decide) (by decide)

/-- Claim C3 counterexample: a message in a GROUP room that has no server
id and already contains a task tagged TWITTER_POST: `validate` throws
"No server ID found" before reaching the pending-task check, so it does
not return false as the claim states. -/
theorem twitterPostValidate_pending_counterexample :
    getTasks envC3 msgC3.roomId ["TWITTER_POST"] ≠ []
    ∧ twitterPostValidate envC3 msgC3 none = Except.error "No server ID found"
    ∧ twitterPostValidate envC3 msgC3 none ≠ Except.ok false := by
  refine ⟨by decide, rfl, ?_⟩
  intro h
  rw [show twitterPostValidate envC3 msgC3 none
      = Except.error "No server ID found" from rfl] at h
  exact Except.noConfusion h

/-- Claim C3 (amended): for every message whose room already contains a
task tagged TWITTER_POST, `twitterPostAction.validate` never resolves to
true — it returns false, or throws when the room lookup fails or the
room's server id is missing — so the dispatcher gate never invokes the
handler and no second pending TWITTER_POST task is created for that
room. -/
theorem twitterPostValidate_blocks_pending (env : TwitterEnv) (msg : MemoryM)
    (stateRoom : Option RoomM)
    (hpending : getTasks env msg.roomId ["TWITTER_POST"] ≠ []) :
    twitterPostValidate env msg stateRoom ≠ Except.ok true
    ∧ actionPasses (twitterPostValidate env msg stateRoom) = false := by
  have hlen : 0 < (getTasks env msg.roomId ["TWITTER_POST"]).length :=
    List.length_pos.mpr hpending
  have key : twitterPostValidate env msg stateRoom ≠ Except.ok true := by
    intro h
    unfold twitterPostValidate at h
    cases hre : (stateRoom <|> getRoom env msg.roomId) with
    | none =>
      rw [hre] at h
      exact Except.noConfusion h
    | some room =>
      rw [hre] at h
      by_cases hty : room.type = ChannelTypeM.GROUP
      · cases hsid : room.serverId with
        | none => simp [hty, hsid] at h
        | some sid =>
          by_cases hemp : sid = ""
          · simp [hty, hsid, hemp] at h
          · simp [hty, hsid, hemp, hlen] at h
      · simp [hty] at h
  refine ⟨key, ?_⟩
  cases hv : twitterPostValidate env msg stateRoom with
  | error e => rfl
  | ok b =>
    cases b with
    | false => rfl
    | true => exact absurd hv key

/-- Witness for the amended C3: on concrete fixtures with a pending
TWITTER_POST task, validate does not resolve to true and the dispatcher
gate stays closed. -/
theorem twitterPostValidate_blocks_pending_witness :
    twitterPostValidate envC3b msgC3b none ≠ Except.ok true
    ∧ actionPasses (twitterPostValidate envC3b msgC3b none) = false :=
  twitterPostValidate_blocks_pending envC3b msgC3b none (by decide)

/-! ## Lemmas about the override merge and the provider fold -/

theorem lookupKV_upsert (m : List (String × Val)) (k : String) (v : Val)
    (k2 : String) :
    lookupKV (upsert m k v) k2 = if k2 = k then some v else lookupKV m k2 := by
  induction m with
  | nil =>
    by_cases h : k2 = k
    · simp [upsert, lookupKV, h]
    · simp [upsert, lookupKV, h, Ne.symm h]
  | cons hd tl ih =>
    obtain ⟨k1, v1⟩ := hd
    by_cases h1 : k1 = k
    · subst h1
      by_cases h2 : k2 = k1
      · subst h2
        simp [upsert, lookupKV]
      · simp [upsert, lookupKV, h2, Ne.symm h2]
    · by_cases h2 : k2 = k
      · subst h2
        have h3 : ¬ k1 = k2 := h1
        simp [upsert, lookupKV, h1, h3, ih]
      · by_cases h4 : k1 = k2
        · subst h4
          simp [upsert, lookupKV, h1, h2]
        · simp [upsert, lookupKV, h1, h2, h4, ih]

theorem lookupKV_mergeKV (c : List (String × Val)) :
    ∀ (m : List (String × Val)) (k : String),
      lookupKV (mergeKV m c) k = (lastIn c k <|> lookupKV m k) := by
  induction c with
  | nil => intro m k; simp [mergeKV, lastIn]
  | cons hd tl ih =>
    intro m k
    obtain ⟨k1, v1⟩ := hd
    show lookupKV (mergeKV (upsert m k1 v1) tl) k = _
    rw [ih, lookupKV_upsert]
    cases hlt : lastIn tl k with
    | some v2 => simp [lastIn, hlt]
    | none =>
      by_cases hk : k1 = k
      · subst hk
        simp [lastIn, hlt]
      · simp [lastIn, hlt, hk, Ne.symm hk]

theorem lookupKV_providerStep (msg : MemoryM) (acc : StateS) (p : ProviderM)
    (k : String) :
    lookupKV (providerStep msg acc p).values k
      = (kContrib p msg acc k <|> lookupKV acc.values k) := by
  unfold providerStep kContrib
  cases hg : p.get msg acc with
  | ok res => simp [lookupKV_mergeKV]
  | error e => simp

theorem lookupKV_fold_preserve (msg : MemoryM) (k : String) (vb : Val) :
    ∀ (d : List ProviderM) (acc : StateS),
      lookupKV acc.values k = some vb →
      (∀ c ∈ d, ∀ st, kContrib c msg st k = none ∨ kContrib c msg st k = some vb) →
      lookupKV (d.foldl (providerStep msg) acc).values k = some vb
  | [], _, hacc, _ => hacc
  | c :: d, acc, hacc, hall => by
    have hstep : lookupKV (providerStep msg acc c).values k = some vb := by
      rw [lookupKV_providerStep]
      rcases hall c (List.mem_cons_self c d) acc with h | h
      · simp [h, hacc]
      · simp [h]
    exact lookupKV_fold_preserve msg k vb d (providerStep msg acc c) hstep
      (fun c2 hc2 st => hall c2 (List.mem_cons_of_mem c hc2) st)

/-! ## Theorems for claims C2 and C5 -/

/-- Claim C2: composeState merges provider contributions in ascending
`position` order (missing position treated as 0), so that whenever two
registered providers with positions p1 < p2 both contribute the same key
(and no other active provider at or above p2's position also contributes
it), the resulting snapshot holds the p2 provider's value, regardless of
registration order — the provider list `P` here carries an arbitrary
registration order. -/
theorem composeState_position_override (P : List ProviderM) (msg : MemoryM)
    (a b : ProviderM) (k : String) (va vb : Val)
    (haP : a ∈ P) (hbP : b ∈ P) (hapriv : a.priv = false) (hbpriv : b.priv = false)
    (ha : ∀ st, kContrib a msg st k = some va)
    (hb : ∀ st, kContrib b msg st k = some vb)
    (hpos : effPos a < effPos b)
    (hmax : ∀ c ∈ P, c.priv = false →
      (∀ st, kContrib c msg st k = none) ∨ effPos c < effPos b ∨
        (∀ st, kContrib c msg st k = some vb)) :
    lookupKV (composeState P msg none none).values k = some vb := by
  have hbsel : b ∈ selectProviders P none none := by
    simp [selectProviders, List.mem_filter, hbP, hbpriv]
  have hbs : b ∈ sortProviders (selectProviders P none none) :=
    (List.perm_insertionSort posLe _).mem_iff.mpr hbsel
  obtain ⟨t, d, hsplit⟩ := List.append_of_mem hbs
  have hsorted : List.Sorted posLe (sortProviders (selectProviders P none none)) :=
    List.sorted_insertionSort posLe _
  rw [hsplit] at hsorted
  have hbd : ∀ c ∈ d, posLe b c := by
    have hpair : List.Pairwise posLe (b :: d) := (List.pairwise_append.mp hsorted).2.1
    exact fun c hc => List.rel_of_pairwise_cons hpair hc
  unfold composeState
  rw [hsplit, List.foldl_append]
  show lookupKV (d.foldl (providerStep msg)
    (providerStep msg (t.foldl (providerStep msg) {}) b)).values k = some vb
  apply lookupKV_fold_preserve
  · rw [lookupKV_providerStep, hb]
    rfl
  · intro c hc st
    have hcs : c ∈ sortProviders (selectProviders P none none) := by
      rw [hsplit]
      exact List.mem_append_right t (List.mem_cons_of_mem b hc)
    have hcsel : c ∈ selectProviders P none none :=
      (List.perm_insertionSort posLe _).mem_iff.mp hcs
    have hcP : c ∈ P ∧ c.priv = false := by
      simpa [selectProviders, List.mem_filter] using hcsel
    rcases hmax c hcP.1 hcP.2 with h | h | h
    · exact Or.inl (h st)
    · exact absurd (hbd c hc) (not_le.mpr h)
    · exact Or.inr (h st)

/-- Witness for C2: the spec's section 8 scenario, registered in reverse
order — `persona` (position 1) overrides `time` (position 0) on the
shared key. -/
theorem composeState_position_override_witness :
    lookupKV (composeState [provPersona, provTime] msgCS none none).values "time"
      = some "overridden" :=
  composeState_position_override [provPersona, provTime] msgCS provTime provPersona
    "time" "early" "overridden"
    (List.mem_cons_of_mem provPersona (List.mem_singleton.mpr rfl))
    (List.mem_cons_self provPersona [provTime])
    rfl rfl (fun _ => rfl) (fun _ => rfl) (by decide)
    (by
      intro c hc _
      rcases List.mem_cons.mp hc with h | h
      · subst h
        exact Or.inr (Or.inr (fun _ => rfl))
      · have h2 : c = provTime := List.mem_singleton.mp h
        subst h2
        exact Or.inr (Or.inl (by decide)))

theorem orderedInsert_middle {α : Type} (r : α → α → Prop) [DecidableRel r]
    [IsTrans α r] (x a : α) :
    ∀ (t d : List α), List.Sorted r (t ++ a :: d) →
      ∃ t2 d2, List.orderedInsert r x (t ++ a :: d) = t2 ++ a :: d2
        ∧ List.orderedInsert r x (t ++ d) = t2 ++ d2
  | [], d, hsort => by
    simp only [List.nil_append]
    by_cases hxa : r x a
    · refine ⟨[x], d, by simp [List.orderedInsert, hxa], ?_⟩
      cases d with
      | nil => simp [List.orderedInsert]
      | cons y d2 =>
        have hay : r a y := List.rel_of_pairwise_cons hsort (List.mem_cons_self y d2)
        have hxy : r x y := IsTrans.trans x a y hxa hay
        simp [List.orderedInsert, hxy]
    · exact ⟨[], List.orderedInsert r x d, by simp [List.orderedInsert, hxa], by simp⟩
  | z :: t, d, hsort => by
    by_cases hxz : r x z
    · exact ⟨x :: z :: t, d, by simp [List.orderedInsert, hxz],
        by simp [List.orderedInsert, hxz]⟩
    · obtain ⟨t2, d2, h1, h2⟩ :=
        orderedInsert_middle r x a t d (List.Sorted.of_cons hsort)
      exact ⟨z :: t2, d2, by simp [List.orderedInsert, hxz, h1],
        by simp [List.orderedInsert, hxz, h2]⟩

theorem insertionSort_middle {α : Type} (r : α → α → Prop) [DecidableRel r]
    [IsTotal α r] [IsTrans α r] (a : α) :
    ∀ (l1 l2 : List α), ∃ t d,
      List.insertionSort r (l1 ++ a :: l2) = t ++ a :: d
        ∧ List.insertionSort r (l1 ++ l2) = t ++ d
  | [], l2 => by
    rw [List.nil_append, List.nil_append]
    rw [show List.insertionSort r (a :: l2)
        = List.orderedInsert r a (List.insertionSort r l2) from rfl]
    rw [List.orderedInsert_eq_take_drop]
    exact ⟨_, _, rfl, (List.takeWhile_append_dropWhile _ _).symm⟩
  | z :: l1, l2 => by
    obtain ⟨t, d, h1, h2⟩ := insertionSort_middle r a l1 l2
    have hsorted : List.Sorted r (t ++ a :: d) :=
      h1 ▸ List.sorted_insertionSort r (l1 ++ a :: l2)
    obtain ⟨t2, d2, g1, g2⟩ := orderedInsert_middle r z a t d hsorted
    refine ⟨t2, d2, ?_, ?_⟩
    · show List.orderedInsert r z (List.insertionSort r (l1 ++ a :: l2)) = _
      rw [h1]
      exact g1
    · show List.orderedInsert r z (List.insertionSort r (l1 ++ l2)) = _
      rw [h2]
      exact g2

/-- Claim C5: if any provider's `get` throws during composeState,
composition does not abort: the failing provider's contribution is
treated as empty and every other provider's contribution is still
merged — composing with the always-throwing provider registered anywhere
in the list yields exactly the snapshot composed without it (and
composeState, being total, always returns a snapshot). -/
theorem composeState_isolates_failure (P1 P2 : List ProviderM)
    (pbad : ProviderM) (msg : MemoryM)
    (hfail : ∀ st, ∃ e, pbad.get msg st = Except.error e) :
    composeState (P1 ++ pbad :: P2) msg none none
      = composeState (P1 ++ P2) msg none none := by
  have hstep : ∀ acc, providerStep msg acc pbad = acc := by
    intro acc
    obtain ⟨e, he⟩ := hfail acc
    simp [providerStep, he]
  unfold composeState
  cases hpriv : pbad.priv with
  | true =>
    have hsel : selectProviders (P1 ++ pbad :: P2) none none
        = selectProviders (P1 ++ P2) none none := by
      simp [selectProviders, List.filter_append, hpriv]
    rw [hsel]
  | false =>
    have hsel : selectProviders (P1 ++ pbad :: P2) none none
        = P1.filter (fun p => !p.priv) ++ pbad :: P2.filter (fun p => !p.priv) := by
      simp [selectProviders, List.filter_append, hpriv]
    have hsel2 : selectProviders (P1 ++ P2) none none
        = P1.filter (fun p => !p.priv) ++ P2.filter (fun p => !p.priv) := by
      simp [selectProviders, List.filter_append]
    rw [hsel, hsel2]
    obtain ⟨t, d, h1, h2⟩ := insertionSort_middle posLe pbad
      (P1.filter (fun p => !p.priv)) (P2.filter (fun p => !p.priv))
    unfold sortProviders
    rw [h1, h2, List.foldl_append, List.foldl_append]
    simp only [List.foldl_cons, hstep]

/-- Witness for C5: composing with the always-throwing provider between
the two good providers yields the same snapshot as composing without
it. -/
theorem composeState_isolates_failure_witness :
    composeState [provTime, provBoom, provPersona] msgCS none none
      = composeState [provTime, provPersona] msgCS none none :=
  composeState_isolates_failure [provTime] [provPersona] provBoom msgCS
    (fun _ => ⟨"boom", rfl⟩)

end Eliza
